import Mathlib

/-!
Shallow embedding of the two Playwright automation scripts of the
`ai_tools_db` repository:

* `src/jules-scratch/verification/verify_features.py` — Procedure A
  (`run_verification` plus its `main` wrapper), and
* `src/jules-scratch/verification/verify_layout.py` — Procedure B
  (`run` plus the module-level `with sync_playwright()` block).

Each Playwright call the scripts issue is embedded as a `Step`.  Where the
source passes an explicit `timeout=` keyword that value is recorded; where
it does not, the Playwright library default is recorded (30000 ms for page
methods such as `goto`, `wait_for_load_state`, `click`, `wait_for_selector`
and `screenshot`; 5000 ms for `expect(...)` assertions).  `page.screenshot`
is called without `full_page=True` in both scripts, and the library default
for `full_page` is `False` (viewport-only capture), so the embedded
screenshot steps carry `fullPage := false`.

Execution is modelled by an oracle `ω : Nat → Bool` stating, for each step
index, whether that step's blocking condition is satisfied within its
bounded wait.  A step whose oracle bit is `false` aborts the run at that
index (a timeout / assertion failure propagating as an uncaught Python
exception); steps after it are never attempted, and a failed step writes
no file.
-/

namespace AiToolsDb

/-- A locator, as built by the scripts: by accessible role and name
(`page.get_by_role`), by CSS selector (`page.locator`), or the `.first`
match of a CSS selector. -/
inductive Selector where
  | role (role : String) (name : String)
  | css (sel : String)
  | cssFirst (sel : String)
deriving DecidableEq, Repr

/-- One Playwright call issued by a script.  Every constructor carries the
millisecond bound of its blocking wait: the explicit `timeout=` argument
when the source passes one, the library default otherwise. -/
inductive Step where
  | goto (url : String) (timeoutMs : Nat)
  | waitForLoadState (state : String) (timeoutMs : Nat)
  | expectVisible (loc : Selector) (timeoutMs : Nat)
  | click (loc : Selector) (force : Bool) (timeoutMs : Nat)
  | expectUrlContains (sub : String) (timeoutMs : Nat)
  | waitForSelector (sel : String) (timeoutMs : Nat)
  | screenshot (path : String) (fullPage : Bool) (timeoutMs : Nat)
deriving DecidableEq, Repr

/-- Playwright default timeout for page methods (`goto`,
`wait_for_load_state`, `click`, `wait_for_selector`, `screenshot`). -/
def pageDefaultTimeout : Nat := 30000

/-- Playwright default timeout for `expect(...)` web-first assertions. -/
def expectDefaultTimeout : Nat := 5000

/-- Fixed output path of Procedure A's screenshot. -/
def verificationPng : String := "jules-scratch/verification/verification.png"

/-- Fixed output path of Procedure B's screenshot. -/
def browsePageFixedPng : String := "jules-scratch/verification/browse-page-fixed.png"

/-- The body of `run_verification` in `verify_features.py`, call by call.
The numbered comments match the numbered comments of the source. -/
def run_verification : List Step :=
  [ -- 1. page.goto("http://localhost:5173/")
    .goto "http://localhost:5173/" pageDefaultTimeout,
    -- 2. page.wait_for_load_state("networkidle")
    .waitForLoadState "networkidle" pageDefaultTimeout,
    -- 3. expect(load_data_button).to_be_visible(timeout=20000)
    .expectVisible (.role "button" "Load Sample Data") 20000,
    --    load_data_button.click(force=True)
    .click (.role "button" "Load Sample Data") true pageDefaultTimeout,
    -- 4. expect(first_tool_card).to_be_visible(timeout=20000)
    .expectVisible (.cssFirst ".group.relative") 20000,
    -- 5. first_tool_card.click()
    .click (.cssFirst ".group.relative") false pageDefaultTimeout,
    -- 6. expect(page).to_have_url(lambda url: "/tool/" in url, timeout=10000)
    .expectUrlContains "/tool/" 10000,
    -- 7. expect(favourite_button).to_be_visible()
    .expectVisible (.css "button.absolute.top-2.right-2") expectDefaultTimeout,
    -- 8. expect(reviews_section_heading).to_be_visible()
    .expectVisible (.role "heading" "Reviews") expectDefaultTimeout,
    -- 9. page.screenshot(path="jules-scratch/verification/verification.png")
    .screenshot verificationPng false pageDefaultTimeout ]

/-- The body of `run` in `verify_layout.py`, call by call. -/
def run_layout : List Step :=
  [ -- page.goto("http://localhost:5174/")
    .goto "http://localhost:5174/" pageDefaultTimeout,
    -- page.wait_for_selector('h1:has-text("AI Tools Database")')
    .waitForSelector "h1:has-text(\"AI Tools Database\")" pageDefaultTimeout,
    -- page.screenshot(path="jules-scratch/verification/browse-page-fixed.png")
    .screenshot browsePageFixedPng false pageDefaultTimeout ]

/-- The file a step writes when it succeeds: only a successful `screenshot`
writes its output path.  A step that times out writes nothing. -/
def stepWrites : Step → List String
  | .screenshot p _ _ => [p]
  | _ => []

/-- The millisecond bound of a step's blocking wait. -/
def stepTimeout : Step → Nat
  | .goto _ t => t
  | .waitForLoadState _ t => t
  | .expectVisible _ t => t
  | .click _ _ t => t
  | .expectUrlContains _ t => t
  | .waitForSelector _ t => t
  | .screenshot _ _ t => t

/-- Result of running a procedure body: how many steps were attempted, whether
all of them succeeded, the index of the failing step if one failed, and the
files written. -/
structure ExecResult where
  executed : Nat
  ok : Bool
  failedStep : Option Nat
  filesWritten : List String
deriving DecidableEq, Repr

/-- Run the steps of a list in order, the first one at oracle index `i`.
A step whose oracle bit is `true` succeeds (performing its writes) and the
run continues; a step whose bit is `false` aborts the run at that index —
the uncaught exception means no later step is attempted. -/
def execSteps (ω : Nat → Bool) : List Step → Nat → ExecResult
  | [], _ => { executed := 0, ok := true, failedStep := none, filesWritten := [] }
  | s :: rest, i =>
      if ω i then
        let r := execSteps ω rest (i + 1)
        { executed := r.executed + 1, ok := r.ok, failedStep := r.failedStep,
          filesWritten := stepWrites s ++ r.filesWritten }
      else
        { executed := 1, ok := false, failedStep := some i, filesWritten := [] }

/-- A run of the body of Procedure A (`run_verification`). -/
def execA (ω : Nat → Bool) : ExecResult := execSteps ω run_verification 0

/-- A run of the body of Procedure B (`run`). -/
def execB (ω : Nat → Bool) : ExecResult := execSteps ω run_layout 0

/-- How the browser process was released. -/
inductive CloseReason where
  | explicitClose
  | scopeExit
deriving DecidableEq, Repr

/-- Result of a whole script process: its exit code, whether a browser was
launched and whether it was shut down, and the body's result. -/
structure SessionResult where
  exitCode : Nat
  browserLaunched : Bool
  browserClosed : Bool
  closeReason : Option CloseReason
  body : ExecResult
deriving DecidableEq, Repr

/-- `main` of `verify_features.py`:
`with sync_playwright() as p:` launches the browser, runs
`run_verification(page)`, then `browser.close()`.  On the success path the
explicit `browser.close()` runs and the process exits 0.  On a failure path
the exception skips `browser.close()` and propagates uncaught (Python exits
nonzero, here 1); the `with` statement still guarantees
`sync_playwright().__exit__`, which stops the Playwright driver and thereby
terminates the browser process it launched. -/
def mainA (ω : Nat → Bool) : SessionResult :=
  let r := execA ω
  if r.ok then
    { exitCode := 0, browserLaunched := true, browserClosed := true,
      closeReason := some .explicitClose, body := r }
  else
    { exitCode := 1, browserLaunched := true, browserClosed := true,
      closeReason := some .scopeExit, body := r }

/-- The module-level `with sync_playwright() as playwright: run(playwright)`
of `verify_layout.py`, with the same scoped-release structure as `mainA`:
`browser.close()` on success, driver shutdown via the `with` scope's exit
on failure. -/
def mainB (ω : Nat → Bool) : SessionResult :=
  let r := execB ω
  if r.ok then
    { exitCode := 0, browserLaunched := true, browserClosed := true,
      closeReason := some .explicitClose, body := r }
  else
    { exitCode := 1, browserLaunched := true, browserClosed := true,
      closeReason := some .scopeExit, body := r }

/-- `true` when `needle` occurs as a contiguous sublist of `hay`. -/
def subOccurs (needle : List Char) : List Char → Bool
  | [] => needle.isEmpty
  | c :: t => needle.isPrefixOf (c :: t) || subOccurs needle t

/-- Character-wise lowering of a string's characters. -/
def lowerChars (l : List Char) : List Char := l.map Char.toLower

/-- Case-insensitive substring containment, the text-matching relation of
Playwright's `:has-text("...")` pseudo-class (which matches an element
whose text contains the given string, case-insensitively). -/
def hasTextMatch (hay needle : String) : Bool :=
  subOccurs (lowerChars needle.data) (lowerChars hay.data)

/-- The page Procedure B's target serves, abstracted to what the script
observes: the text contents of its `h1` heading elements. -/
structure PageB where
  headings : List String
deriving DecidableEq, Repr

/-- Whether `page.wait_for_selector('h1:has-text("AI Tools Database")')`
is satisfied on a served page: some `h1` text contains
"AI Tools Database", case-insensitively. -/
def headingMatches (pg : PageB) : Bool :=
  pg.headings.any (fun h => hasTextMatch h "AI Tools Database")

/-- The oracle a served page induces for Procedure B when the server is up:
navigation and the screenshot succeed, and the `wait_for_selector` step
(index 1) succeeds exactly when the page has a matching heading. -/
def oracleB (pg : PageB) : Nat → Bool :=
  fun i => if i = 1 then headingMatches pg else true

/-- A run of Procedure B against a reachable server serving `pg`. -/
def execBPage (pg : PageB) : ExecResult := execB (oracleB pg)

end AiToolsDb

namespace AiToolsDb

/-- A run succeeds exactly when the oracle grants every step of the list. -/
theorem execSteps_ok_iff (ω : Nat → Bool) (l : List Step) (i : Nat) :
    (execSteps ω l i).ok = true ↔ ∀ j, j < l.length → ω (i + j) = true := by
  induction l generalizing i with
  | nil => simp [execSteps]
  | cons s rest ih =>
    by_cases h : ω i
    · simp only [execSteps, h, if_true]
      rw [ih (i + 1)]
      constructor
      · intro hall j hj
        cases j with
        | zero => simpa using h
        | succ j' =>
          have := hall j' (by simpa using Nat.lt_of_succ_lt_succ hj)
          simpa [Nat.add_assoc, Nat.add_comm 1 j'] using this
      · intro hall j hj
        have := hall (j + 1) (by simpa using Nat.succ_lt_succ hj)
        simpa [Nat.add_assoc, Nat.add_comm 1 j] using this
    · simp only [execSteps, h, if_false]
      constructor
      · intro hfalse; exact absurd hfalse (by simp)
      · intro hall
        have := hall 0 (by simp)
        simp only [Nat.add_zero] at this
        exact absurd this (by simpa using h)

/-- No step of a list is attempted more than once: the number of attempted
steps never exceeds the list's length. -/
theorem execSteps_executed_le (ω : Nat → Bool) (l : List Step) (i : Nat) :
    (execSteps ω l i).executed ≤ l.length := by
  induction l generalizing i with
  | nil => simp [execSteps]
  | cons s rest ih =>
    by_cases h : ω i
    · simpa [execSteps, h] using Nat.succ_le_succ (ih (i + 1))
    · simp [execSteps, h]

/-- A fully successful run attempts every step of the list. -/
theorem execSteps_ok_executed (ω : Nat → Bool) (l : List Step) (i : Nat)
    (hok : (execSteps ω l i).ok = true) :
    (execSteps ω l i).executed = l.length := by
  induction l generalizing i with
  | nil => simp [execSteps]
  | cons s rest ih =>
    by_cases h : ω i
    · simp only [execSteps, h, if_true] at hok ⊢
      simpa using ih (i + 1) hok
    · simp [execSteps, h] at hok

/-- Every file a run writes is written by one of the list's steps. -/
theorem execSteps_files_mem (ω : Nat → Bool) (l : List Step) (i : Nat) :
    ∀ f ∈ (execSteps ω l i).filesWritten, ∃ s ∈ l, f ∈ stepWrites s := by
  induction l generalizing i with
  | nil => simp [execSteps]
  | cons s rest ih =>
    intro f hf
    by_cases h : ω i
    · simp only [execSteps, h, if_true, List.mem_append] at hf
      rcases hf with hf | hf
      · exact ⟨s, by simp, hf⟩
      · obtain ⟨s', hs', hfs'⟩ := ih (i + 1) f hf
        exact ⟨s', by simp [hs'], hfs'⟩
    · simp [execSteps, h] at hf

/-- A fully successful run writes exactly the concatenated writes of the
list's steps, in list order. -/
theorem execSteps_ok_files (ω : Nat → Bool) (l : List Step) (i : Nat)
    (hok : (execSteps ω l i).ok = true) :
    (execSteps ω l i).filesWritten = l.foldr (fun s acc => stepWrites s ++ acc) [] := by
  induction l generalizing i with
  | nil => simp [execSteps]
  | cons s rest ih =>
    by_cases h : ω i
    · simp only [execSteps, h, if_true] at hok ⊢
      simpa using ih (i + 1) hok
    · simp [execSteps, h] at hok

end AiToolsDb

namespace AiToolsDb

/-- Whether a step is a full-page screenshot capture. -/
def isFullPageShot : Step → Bool
  | .screenshot _ fp _ => fp
  | _ => false

/-- C1: For every run of either procedure — whether the body completes or
aborts with an assertion failure or timeout at any step — the launched
browser process is shut down before the process exits: by the explicit
`browser.close()` on the success path, and by the `sync_playwright`
with-scope's exit handler on every failure path. -/
theorem c1_browser_always_released (ω : Nat → Bool) :
    (mainA ω).browserLaunched = true ∧ (mainA ω).browserClosed = true ∧
    (mainA ω).closeReason.isSome = true ∧
    (mainB ω).browserLaunched = true ∧ (mainB ω).browserClosed = true ∧
    (mainB ω).closeReason.isSome = true := by
  unfold mainA mainB
  by_cases hA : (execA ω).ok <;> by_cases hB : (execB ω).ok <;> simp [hA, hB]

/-- Witness for C1 at a fully successful oracle and at a failing oracle. -/
theorem c1_browser_always_released_witness :
    (mainA (fun _ => true)).browserClosed = true ∧
    (mainB (fun _ => false)).browserClosed = true :=
  ⟨(c1_browser_always_released (fun _ => true)).2.1,
   (c1_browser_always_released (fun _ => false)).2.2.2.2.1⟩

/-- C2 counterexample: a fully successful run of each procedure ends with a
screenshot step whose full-page flag is `false` — the source calls
`page.screenshot(path=...)` without `full_page=True`, and the library
default is a viewport-only capture — so the claim that the final screenshot
captures the whole scrollable page is false. -/
theorem c2_full_page_counterexample :
    (execA (fun _ => true)).ok = true ∧
    (execA (fun _ => true)).filesWritten = [verificationPng] ∧
    run_verification.getLast?.map isFullPageShot = some false ∧
    (execBPage ⟨["AI Tools Database"]⟩).ok = true ∧
    (execBPage ⟨["AI Tools Database"]⟩).filesWritten = [browsePageFixedPng] ∧
    run_layout.getLast?.map isFullPageShot = some false := by decide

/-- C2 (amended): for every successful run, Procedure A and Procedure B each
capture one screenshot to their fixed output paths as the final step; the
capture is viewport-only (the full-page option is left at its `false`
default), not a capture of the whole scrollable page. -/
theorem c2_screenshot_final_step (ω : Nat → Bool) (pg : PageB)
    (hA : (execA ω).ok = true) (hB : (execBPage pg).ok = true) :
    (execA ω).filesWritten = [verificationPng] ∧
    run_verification.getLast? = some (.screenshot verificationPng false pageDefaultTimeout) ∧
    (execBPage pg).filesWritten = [browsePageFixedPng] ∧
    run_layout.getLast? = some (.screenshot browsePageFixedPng false pageDefaultTimeout) := by
  refine ⟨?_, by decide, ?_, by decide⟩
  · exact (execSteps_ok_files ω run_verification 0 hA).trans (by decide)
  · exact (execSteps_ok_files (oracleB pg) run_layout 0 hB).trans (by decide)

/-- Witness for C2 (amended) at a fully successful oracle and page. -/
theorem c2_screenshot_final_step_witness :
    (execA (fun _ => true)).filesWritten = [verificationPng] ∧
    (execBPage ⟨["AI Tools Database"]⟩).filesWritten = [browsePageFixedPng] :=
  ⟨(c2_screenshot_final_step (fun _ => true) ⟨["AI Tools Database"]⟩
      (by decide) (by decide)).1,
   (c2_screenshot_final_step (fun _ => true) ⟨["AI Tools Database"]⟩
      (by decide) (by decide)).2.2.1⟩

/-- C3: in Procedure A, the "Load Sample Data" button is required to become
visible within 20000 ms (step index 2) and the forced click on it is the
immediately following step (index 3); whenever the visibility assertion
fails, the run aborts and the forced click is never among the attempted
steps. -/
theorem c3_forced_click_after_visibility (ω : Nat → Bool) (h2 : ω 2 = false) :
    run_verification.get? 2 =
      some (.expectVisible (.role "button" "Load Sample Data") 20000) ∧
    run_verification.get? 3 =
      some (.click (.role "button" "Load Sample Data") true pageDefaultTimeout) ∧
    (execA ω).ok = false ∧
    ((run_verification.take (execA ω).executed).all
      (fun s => s != .click (.role "button" "Load Sample Data") true pageDefaultTimeout))
      = true := by
  refine ⟨by decide, by decide, ?_, ?_⟩ <;>
    cases h0 : ω 0 <;> cases h1 : ω 1 <;>
      simp [execA, run_verification, execSteps, h0, h1, h2]

/-- Witness for C3 at an oracle failing exactly the visibility assertion. -/
theorem c3_forced_click_after_visibility_witness :
    (execA (fun i => decide (i ≠ 2))).ok = false ∧
    ((run_verification.take (execA (fun i => decide (i ≠ 2))).executed).all
      (fun s => s != .click (.role "button" "Load Sample Data") true pageDefaultTimeout))
      = true :=
  ⟨(c3_forced_click_after_visibility (fun i => decide (i ≠ 2)) (by decide)).2.2.1,
   (c3_forced_click_after_visibility (fun i => decide (i ≠ 2)) (by decide)).2.2.2⟩

/-- C4: in Procedure A, if every step up to and including the click on the
first card succeeds but the URL does not come to contain "/tool/" within its
10000 ms bound, the run fails exactly at that URL assertion (step index 6),
not at any earlier step. -/
theorem c4_fails_exactly_at_url_assert (ω : Nat → Bool)
    (h0 : ω 0 = true) (h1 : ω 1 = true) (h2 : ω 2 = true) (h3 : ω 3 = true)
    (h4 : ω 4 = true) (h5 : ω 5 = true) (h6 : ω 6 = false) :
    run_verification.get? 6 = some (.expectUrlContains "/tool/" 10000) ∧
    (execA ω).failedStep = some 6 ∧ (execA ω).ok = false := by
  refine ⟨by decide, ?_, ?_⟩ <;>
    simp [execA, run_verification, execSteps, h0, h1, h2, h3, h4, h5, h6]

/-- Witness for C4 at an oracle failing exactly the URL assertion. -/
theorem c4_fails_exactly_at_url_assert_witness :
    (execA (fun i => decide (i < 6))).failedStep = some 6 ∧
    (execA (fun i => decide (i < 6))).ok = false :=
  ⟨(c4_fails_exactly_at_url_assert (fun i => decide (i < 6))
      (by decide) (by decide) (by decide) (by decide) (by decide) (by decide)
      (by decide)).2.1,
   (c4_fails_exactly_at_url_assert (fun i => decide (i < 6))
      (by decide) (by decide) (by decide) (by decide) (by decide) (by decide)
      (by decide)).2.2⟩

/-- C5: if Procedure A reaches the "Load Sample Data" visibility assertion
(step index 2, bounded by 20000 ms) and the control never becomes visible
within that wait, the run aborts at exactly that step and writes no
screenshot file. -/
theorem c5_button_timeout_no_screenshot (ω : Nat → Bool)
    (h0 : ω 0 = true) (h1 : ω 1 = true) (h2 : ω 2 = false) :
    run_verification.get? 2 =
      some (.expectVisible (.role "button" "Load Sample Data") 20000) ∧
    (execA ω).failedStep = some 2 ∧ (execA ω).ok = false ∧
    (execA ω).filesWritten = [] := by
  refine ⟨by decide, ?_, ?_, ?_⟩ <;>
    simp [execA, run_verification, execSteps, stepWrites, h0, h1, h2]

/-- Witness for C5 at an oracle failing exactly the button visibility wait. -/
theorem c5_button_timeout_no_screenshot_witness :
    (execA (fun i => decide (i < 2))).failedStep = some 2 ∧
    (execA (fun i => decide (i < 2))).filesWritten = [] :=
  ⟨(c5_button_timeout_no_screenshot (fun i => decide (i < 2))
      (by decide) (by decide) (by decide)).2.1,
   (c5_button_timeout_no_screenshot (fun i => decide (i < 2))
      (by decide) (by decide) (by decide)).2.2.2⟩

end AiToolsDb

namespace AiToolsDb

/-- C6 counterexample: Procedure B's wait uses the `:has-text(...)`
pseudo-class, which matches an `h1` whose text CONTAINS "AI Tools Database";
a served page whose heading text is "Welcome to the AI Tools Database" —
different from "AI Tools Database" — therefore also satisfies the wait, and
the run completes and writes the screenshot, refuting the claim that any
heading text other than exactly "AI Tools Database" leaves the wait
unsatisfied with no screenshot written. -/
theorem c6_heading_substring_counterexample :
    ("Welcome to the AI Tools Database" : String) ≠ "AI Tools Database" ∧
    (execBPage ⟨["Welcome to the AI Tools Database"]⟩).ok = true ∧
    (execBPage ⟨["Welcome to the AI Tools Database"]⟩).filesWritten
      = [browsePageFixedPng] := by decide

/-- C6 (amended): Procedure B blocks on its heading wait before the
screenshot: the run completes exactly when some `h1` text of the served page
contains "AI Tools Database" (case-insensitively) — in particular when the
heading is exactly "AI Tools Database" — and then writes the screenshot
file; when no heading contains that text the run fails at the wait (step
index 1) and writes no screenshot. -/
theorem c6_heading_wait_gates_screenshot (pg : PageB) :
    ((execBPage pg).ok = true ↔ headingMatches pg = true) ∧
    ((execBPage pg).ok = true → (execBPage pg).filesWritten = [browsePageFixedPng]) ∧
    ((execBPage pg).ok = false →
      (execBPage pg).failedStep = some 1 ∧ (execBPage pg).filesWritten = []) := by
  by_cases h : headingMatches pg <;>
    simp [execBPage, execB, run_layout, execSteps, oracleB, stepWrites, h]

/-- Witness for C6 (amended) at the exactly-matching page and a
non-matching page. -/
theorem c6_heading_wait_gates_screenshot_witness :
    (execBPage ⟨["AI Tools Database"]⟩).filesWritten = [browsePageFixedPng] ∧
    (execBPage ⟨["Something Else"]⟩).failedStep = some 1 :=
  ⟨(c6_heading_wait_gates_screenshot ⟨["AI Tools Database"]⟩).2.1
      ((c6_heading_wait_gates_screenshot ⟨["AI Tools Database"]⟩).1.mpr (by decide)),
   ((c6_heading_wait_gates_screenshot ⟨["Something Else"]⟩).2.2 (by decide)).1⟩

/-- C7: Procedure A's control flow is strictly linear: its body is exactly
this fixed sequence of calls (realising the nine specified steps in order,
step 3 comprising the visibility assertion followed by the forced click),
the favourite-toggle visibility assertion (index 7) sits after the URL
assertion (index 6) and before the "Reviews" heading assertion (index 8),
every run attempts a prefix of the sequence with no step repeated, and a
successful run attempts all of them. -/
theorem c7_strictly_linear_order :
    run_verification =
      [ .goto "http://localhost:5173/" 30000,
        .waitForLoadState "networkidle" 30000,
        .expectVisible (.role "button" "Load Sample Data") 20000,
        .click (.role "button" "Load Sample Data") true 30000,
        .expectVisible (.cssFirst ".group.relative") 20000,
        .click (.cssFirst ".group.relative") false 30000,
        .expectUrlContains "/tool/" 10000,
        .expectVisible (.css "button.absolute.top-2.right-2") 5000,
        .expectVisible (.role "heading" "Reviews") 5000,
        .screenshot verificationPng false 30000 ] ∧
    run_verification.get? 6 = some (.expectUrlContains "/tool/" 10000) ∧
    run_verification.get? 7 =
      some (.expectVisible (.css "button.absolute.top-2.right-2") 5000) ∧
    run_verification.get? 8 =
      some (.expectVisible (.role "heading" "Reviews") 5000) ∧
    (∀ ω, (execA ω).executed ≤ run_verification.length) ∧
    (∀ ω, (execA ω).ok = true → (execA ω).executed = run_verification.length) := by
  refine ⟨by decide, by decide, by decide, by decide, ?_, ?_⟩
  · intro ω; exact execSteps_executed_le ω run_verification 0
  · intro ω h; exact execSteps_ok_executed ω run_verification 0 h

/-- Witness for C7 at a fully successful oracle. -/
theorem c7_strictly_linear_order_witness :
    (execA (fun _ => true)).executed ≤ run_verification.length ∧
    (execA (fun _ => true)).executed = run_verification.length :=
  ⟨c7_strictly_linear_order.2.2.2.2.1 (fun _ => true),
   c7_strictly_linear_order.2.2.2.2.2 (fun _ => true) (by decide)⟩

/-- C8: for every run of either procedure, the process exits 0 exactly when
every step succeeded; any unmet wait or assertion propagates uncaught (there
is no handler in either script) and the process exits nonzero (1, Python's
uncaught-exception exit code). -/
theorem c8_exit_zero_iff_all_steps (ω : Nat → Bool) :
    ((mainA ω).exitCode = 0 ↔ ∀ j, j < run_verification.length → ω j = true) ∧
    ((mainA ω).exitCode ≠ 0 → (mainA ω).exitCode = 1) ∧
    ((mainB ω).exitCode = 0 ↔ ∀ j, j < run_layout.length → ω j = true) ∧
    ((mainB ω).exitCode ≠ 0 → (mainB ω).exitCode = 1) := by
  have eA : (mainA ω).exitCode = 0 ↔ (execA ω).ok = true := by
    unfold mainA; by_cases h : (execA ω).ok <;> simp [h]
  have eB : (mainB ω).exitCode = 0 ↔ (execB ω).ok = true := by
    unfold mainB; by_cases h : (execB ω).ok <;> simp [h]
  have nA : (mainA ω).exitCode ≠ 0 → (mainA ω).exitCode = 1 := by
    unfold mainA; by_cases h : (execA ω).ok <;> simp [h]
  have nB : (mainB ω).exitCode ≠ 0 → (mainB ω).exitCode = 1 := by
    unfold mainB; by_cases h : (execB ω).ok <;> simp [h]
  refine ⟨eA.trans ?_, nA, eB.trans ?_, nB⟩
  · simpa using execSteps_ok_iff ω run_verification 0
  · simpa using execSteps_ok_iff ω run_layout 0

/-- Witness for C8 at a fully successful oracle and a failing oracle. -/
theorem c8_exit_zero_iff_all_steps_witness :
    (mainA (fun _ => true)).exitCode = 0 ∧ (mainA (fun _ => false)).exitCode = 1 :=
  ⟨(c8_exit_zero_iff_all_steps (fun _ => true)).1.mpr (fun _ _ => rfl),
   (c8_exit_zero_iff_all_steps (fun _ => false)).2.1 (by decide)⟩

/-- C9: the two procedures write to two distinct fixed paths, and every file
a run of Procedure A writes is its own fixed path, likewise for Procedure B
— so running one never overwrites the other's artifact, and each run touches
no output file other than its own. -/
theorem c9_distinct_output_paths (ω ω' : Nat → Bool) :
    verificationPng ≠ browsePageFixedPng ∧
    (∀ f ∈ (execA ω).filesWritten, f = verificationPng) ∧
    (∀ f ∈ (execB ω').filesWritten, f = browsePageFixedPng) := by
  refine ⟨by decide, ?_, ?_⟩
  · intro f hf
    obtain ⟨s, hs, hfs⟩ := execSteps_files_mem ω run_verification 0 f hf
    simp only [run_verification, List.mem_cons, List.not_mem_nil, or_false] at hs
    rcases hs with rfl | rfl | rfl | rfl | rfl | rfl | rfl | rfl | rfl | rfl <;>
      simp_all [stepWrites]
  · intro f hf
    obtain ⟨s, hs, hfs⟩ := execSteps_files_mem ω' run_layout 0 f hf
    simp only [run_layout, List.mem_cons, List.not_mem_nil, or_false] at hs
    rcases hs with rfl | rfl | rfl <;> simp_all [stepWrites]

/-- Witness for C9 at fully successful oracles. -/
theorem c9_distinct_output_paths_witness :
    verificationPng ≠ browsePageFixedPng ∧
    verificationPng = verificationPng ∧ browsePageFixedPng = browsePageFixedPng :=
  ⟨(c9_distinct_output_paths (fun _ => true) (fun _ => true)).1,
   (c9_distinct_output_paths (fun _ => true) (fun _ => true)).2.1
      verificationPng (by decide),
   (c9_distinct_output_paths (fun _ => true) (fun _ => true)).2.2
      browsePageFixedPng (by decide)⟩

/-- C10: every blocking wait of either procedure carries a finite positive
bound — the explicit 20000, 20000 and 10000 ms timeouts of Procedure A, the
5000 ms expect-assertion default for its two remaining visibility
assertions, and the 30000 ms page-method default for navigation,
network-idle, clicks, Procedure B's heading wait and the screenshots — and
every run attempts at most the finite number of steps of its procedure, so
each run terminates, completing or failing at a bounded wait. -/
theorem c10_all_waits_bounded :
    run_verification.map stepTimeout =
      [30000, 30000, 20000, 30000, 20000, 30000, 10000, 5000, 5000, 30000] ∧
    run_layout.map stepTimeout = [30000, 30000, 30000] ∧
    (∀ s ∈ run_verification, 0 < stepTimeout s ∧ stepTimeout s ≤ 30000) ∧
    (∀ s ∈ run_layout, 0 < stepTimeout s ∧ stepTimeout s ≤ 30000) ∧
    (∀ ω, (execA ω).executed ≤ 10 ∧ (execB ω).executed ≤ 3) := by
  refine ⟨by decide, by decide, by decide, by decide, fun ω => ⟨?_, ?_⟩⟩
  · exact execSteps_executed_le ω run_verification 0
  · exact execSteps_executed_le ω run_layout 0

/-- Witness for C10 at a concrete step and a fully successful oracle. -/
theorem c10_all_waits_bounded_witness :
    0 < stepTimeout (.expectUrlContains "/tool/" 10000) ∧
    (execA (fun _ => true)).executed ≤ 10 :=
  ⟨(c10_all_waits_bounded.2.2.1 (.expectUrlContains "/tool/" 10000) (by decide)).1,
   (c10_all_waits_bounded.2.2.2.2 (fun _ => true)).1⟩

end AiToolsDb
